import Mathlib

/-!
Verification of the HomeSentry Alert Decision & Scheduling Engine.

This file gives a shallow embedding, in Lean 4, of the alert-decision code of
the HomeSentry repository (`app/alerts/rules.py`, `app/alerts/grace_period.py`,
`app/alerts/maintenance.py`, `app/alerts/sleep_schedule.py`,
`app/alerts/discord.py`, `app/storage/db.py`), and proves properties of it.

Modelling conventions:
* Python strings are Lean `String`s; `str.lower` / `str.upper` / `str.title`
  are modelled for the ASCII fragment (all inputs the program uses are ASCII).
* The process environment is a total map `String → Option String`
  (`none` = variable unset), so `os.getenv(key, default)` is
  `(env key).getD default`.
* Wall-clock time is split into the pieces the code actually consumes:
  a time of day (hour, minute) for window checks, a weekday number
  (0 = Monday) for day filters, and an epoch-seconds integer for cooldown
  arithmetic.  `datetime.now() - last_notified` becomes an integer number of
  elapsed seconds.
* The SQLite event log is a Lean list in insertion order; `CURRENT_TIMESTAMP`
  ordering (`ORDER BY ts DESC LIMIT 1`) is represented by list position.
* Network delivery is an oracle: the outcome of `requests.post` is an input,
  and the `try/except` wrappers of `send_discord_webhook` / `process_alert`
  are modelled by total functions returning `Bool`, which is exactly the
  observable behaviour (exceptions never escape those wrappers).
-/

namespace HomeSentry

/-! ## Python string helpers (ASCII fragment) -/

/-- Model of Python `str.lower` on the ASCII fragment. -/
def pyLower (s : String) : String := ⟨s.data.map Char.toLower⟩

/-- Model of Python `str.upper` on the ASCII fragment. -/
def pyUpper (s : String) : String := ⟨s.data.map Char.toUpper⟩

/-- Model of Python `str.replace(old, new)` for the single-character
patterns the program uses (`" "→"_"` and `"_"→" "`). -/
def pyReplaceChar (s : String) (old new : Char) : String :=
  ⟨s.data.map (fun c => if c = old then new else c)⟩

/-- Model of Python `str.strip()`: drop leading and trailing whitespace. -/
def pyStrip (s : String) : String :=
  ⟨((s.data.dropWhile Char.isWhitespace).reverse.dropWhile Char.isWhitespace).reverse⟩

/-- Model of Python `str.split(sep)` for the single-character separators the
program uses (`'-'`, `':'`, `','`): split at every occurrence, keeping empty
pieces. -/
def pySplitCharAux (sep : Char) : List Char → List Char → List String
  | [], acc => [⟨acc.reverse⟩]
  | c :: cs, acc =>
    if c = sep then ⟨acc.reverse⟩ :: pySplitCharAux sep cs []
    else pySplitCharAux sep cs (c :: acc)

/-- Model of Python `str.split(sep)` for a single-character separator. -/
def pySplitChar (s : String) (sep : Char) : List String :=
  pySplitCharAux sep s.data []

/-- Stable insertion into a sorted list (for the model of `sorted(...)`). -/
def insertSortedBy {α : Type} (le : α → α → Bool) (a : α) : List α → List α
  | [] => [a]
  | b :: bs => if le a b then a :: b :: bs else b :: insertSortedBy le a bs

/-- Model of Python `sorted(xs)`: insertion sort by the given order. -/
def pySorted {α : Type} (le : α → α → Bool) (l : List α) : List α :=
  l.foldr (insertSortedBy le) []

/-- Model of Python `sep.join(parts)`. -/
def pyJoin (sep : String) : List String → String
  | [] => ""
  | p :: ps => ps.foldl (fun acc q => acc ++ sep ++ q) p

/-- Code-point lexicographic `≤` on character lists (Python string order). -/
def charListLe : List Char → List Char → Bool
  | [], _ => true
  | _ :: _, [] => false
  | a :: as, b :: bs =>
    if a.toNat < b.toNat then true
    else if a.toNat = b.toNat then charListLe as bs
    else false

/-- Model of Python string comparison (code-point lexicographic `≤`). -/
def pyStrLe (a b : String) : Bool := charListLe a.data b.data

/-- Decimal digits to a number, `none` if empty or non-digit. -/
def pyNatDigits? (l : List Char) : Option Nat :=
  if l.isEmpty then none
  else if l.all (fun c => c.isDigit) then
    some (l.foldl (fun n c => n * 10 + (c.toNat - 48)) 0)
  else none

/-- Model of Python `str.title` on the ASCII fragment: the first letter of
every alphabetic run is uppercased, the rest lowercased. -/
def pyTitleAux : List Char → Bool → List Char
  | [], _ => []
  | c :: cs, prevAlpha =>
    if c.isAlpha then
      (if prevAlpha then c.toLower else c.toUpper) :: pyTitleAux cs true
    else
      c :: pyTitleAux cs false

/-- Model of Python `str.title` on the ASCII fragment. -/
def pyTitle (s : String) : String := ⟨pyTitleAux s.data false⟩

/-- Python truthiness of an `os.getenv(key)` result: `None` and `""` are
falsy, every other string is truthy. -/
def pyTruthy : Option String → Bool
  | none => false
  | some s => s ≠ ""

/-- `os.getenv(key, default)` over the environment model. -/
def pyGetenv (env : String → Option String) (key dflt : String) : String :=
  (env key).getD dflt

/-- Model of Python `int(s)` for the decimal strings the program feeds it:
surrounding whitespace is tolerated, an optional single sign is accepted,
anything else fails (`none` = `ValueError`).  (Python's underscore digit
separators are not modelled; none of the inputs concerned use them.) -/
def pyInt (s : String) : Option Int :=
  match (pyStrip s).data with
  | [] => none
  | c :: cs =>
    if c = '-' then (pyNatDigits? cs).map (fun n => -(n : Int))
    else if c = '+' then (pyNatDigits? cs).map (fun n => (n : Int))
    else (pyNatDigits? (c :: cs)).map (fun n => (n : Int))

/-! ## Time of day

Python `datetime.time(h, m)` values compare lexicographically on
(hour, minute); seconds and microseconds are always zero here. -/

/-- A Python `datetime.time` with zero seconds: hour and minute. -/
structure TimeHM where
  hour : Nat
  minute : Nat
deriving DecidableEq, Repr

/-- Lexicographic `<=` on `datetime.time` values. -/
def TimeHM.leb (a b : TimeHM) : Bool :=
  a.hour < b.hour || (a.hour = b.hour && a.minute ≤ b.minute)

/-- Two-digit zero padding, as in `strftime` field output. -/
def pad2 (n : Nat) : String :=
  if n < 10 then "0" ++ toString n else toString n

/-- Model of `t.strftime("%H:%M")`. -/
def TimeHM.hhmm (t : TimeHM) : String :=
  pad2 t.hour ++ ":" ++ pad2 t.minute

/-- The pieces of `datetime.now()` the engine consumes: epoch seconds for
cooldown arithmetic, time of day for window checks, weekday (0 = Monday,
6 = Sunday) for day filters. -/
structure Now where
  epoch : Int
  timeOfDay : TimeHM
  weekday : Nat
deriving Repr

/-! ## `app/alerts/rules.py`: event keys and state-change gating -/

/-- `generate_event_key` (rules.py): sanitise the name (spaces to
underscores, lowercase) and join with the category.  Note the source
lowercases only the name, not the category. -/
def generate_event_key (category name : String) : String :=
  let clean_name := pyLower (pyReplaceChar name ' ' '_')
  category ++ "_" ++ clean_name

/-- The status-order dictionary lookup
`{"OK": 0, "WARN": 1, "FAIL": 2}.get(s, 0)` in `should_alert`. -/
def statusOrderGet (s : String) : Nat :=
  if s = "OK" then 0 else if s = "WARN" then 1 else if s = "FAIL" then 2 else 0

/-- `should_alert` (rules.py).  `elapsed` is the integer number of seconds
`datetime.now() - last_notified`; `none` covers both a missing
`last_notified_ts` and an unparseable one (both of which lead the source to
fall through and alert). -/
def should_alert (prevStatus : Option String) (newStatus : String)
    (elapsed : Option Int) (cooldownMinutes : Int) : Bool :=
  match prevStatus with
  | none => true
  | some prev =>
    if prev = newStatus then false
    else if newStatus = "OK" then true
    else if statusOrderGet newStatus > statusOrderGet prev then true
    else
      match elapsed with
      | some e => if e < cooldownMinutes * 60 then false else true
      | none => true

/-! ## `app/alerts/grace_period.py` -/

/-- `PendingState` (grace_period.py): a pending state change being tracked
during the grace period. -/
structure PendingState where
  eventKey : String
  badStatus : String
  prevStatus : Option String
  firstSeenTs : Int
  consecutiveChecks : Nat
deriving DecidableEq, Repr

/-- The module-level `_pending_states` dict, as an association list. -/
abbrev PendingMap := List (String × PendingState)

/-- Dict membership / lookup for the pending-state map. -/
def PendingMap.find (m : PendingMap) (key : String) : Option PendingState :=
  match m with
  | [] => none
  | (k, v) :: rest => if k = key then some v else PendingMap.find rest key

/-- Dict assignment `_pending_states[key] = v`. -/
def PendingMap.set (m : PendingMap) (key : String) (v : PendingState) : PendingMap :=
  match m with
  | [] => [(key, v)]
  | (k, w) :: rest =>
    if k = key then (k, v) :: rest else (k, w) :: PendingMap.set rest key v

/-- Dict deletion `del _pending_states[key]`. -/
def PendingMap.erase (m : PendingMap) (key : String) : PendingMap :=
  match m with
  | [] => []
  | (k, w) :: rest =>
    if k = key then rest else (k, w) :: PendingMap.erase rest key

/-- `check_grace_period` (grace_period.py), with the module constant
`GRACE_CHECKS` and `datetime.now()` passed explicitly, and the mutation of
`_pending_states` made an explicit state transition. -/
def check_grace_period (graceChecks : Nat) (now : Int) (m : PendingMap)
    (eventKey currentStatus : String) (prevStatus : Option String) :
    Bool × String × PendingMap :=
  -- Recovery to OK always proceeds immediately; any pending state is dropped.
  if currentStatus = "OK" then
    (true, "Recovery to OK - immediate alert", m.erase eventKey)
  else
    match prevStatus with
    | none =>
      let p : PendingState :=
        ⟨eventKey, currentStatus, none, now, 1⟩
      (false, s!"Started grace period (1/{graceChecks})", m.set eventKey p)
    | some prev =>
      if prev = "OK" ∧ (currentStatus = "WARN" ∨ currentStatus = "FAIL") then
        match m.find eventKey with
        | some pending =>
          let n := pending.consecutiveChecks + 1
          if n ≥ graceChecks then
            (true, s!"Grace period passed ({n} checks)", m.erase eventKey)
          else
            (false, s!"In grace period ({n}/{graceChecks})",
              m.set eventKey { pending with consecutiveChecks := n })
        | none =>
          let p : PendingState := ⟨eventKey, currentStatus, some prev, now, 1⟩
          (false, s!"Started grace period (1/{graceChecks})", m.set eventKey p)
      else if (prev = "WARN" ∨ prev = "FAIL")
          ∧ (currentStatus = "WARN" ∨ currentStatus = "FAIL") then
        match m.find eventKey with
        | some pending =>
          let n := pending.consecutiveChecks + 1
          if n ≥ graceChecks then
            (true, s!"Grace period passed with status change ({n} checks)",
              m.erase eventKey)
          else
            (false, s!"In grace period with status change ({n}/{graceChecks})",
              m.set eventKey { pending with consecutiveChecks := n, badStatus := currentStatus })
        | none =>
          (true, "Status change detected (not in grace period)", m)
      else
        (true, "Default proceed", m)

/-! ## `app/alerts/maintenance.py` -/

/-- `parse_maintenance_window` (maintenance.py): parse `"HH:MM-HH:MM"` into
two times of day, `none` on any malformed input. -/
def parse_maintenance_window (windowStr : String) : Option (TimeHM × TimeHM) :=
  match pySplitChar (pyStrip windowStr) '-' with
  | [startStr, endStr] =>
    match pySplitChar (pyStrip startStr) ':', pySplitChar (pyStrip endStr) ':' with
    | [sh, sm], [eh, em] =>
      match pyInt sh, pyInt sm, pyInt eh, pyInt em with
      | some startHour, some startMin, some endHour, some endMin =>
        if ¬ (0 ≤ startHour ∧ startHour ≤ 23 ∧ 0 ≤ startMin ∧ startMin ≤ 59) then
          none
        else if ¬ (0 ≤ endHour ∧ endHour ≤ 23 ∧ 0 ≤ endMin ∧ endMin ≤ 59) then
          none
        else
          some (⟨startHour.toNat, startMin.toNat⟩, ⟨endHour.toNat, endMin.toNat⟩)
      | _, _, _, _ => none
    | _, _ => none
  | _ => none

/-- `parse_maintenance_days` (maintenance.py): comma-separated day numbers
(0 = Monday); empty, unparseable or all-invalid input degrades to all days. -/
def parse_maintenance_days (daysStr : String) : List Nat :=
  if daysStr = "" then [0, 1, 2, 3, 4, 5, 6]
  else
    let parts := (pySplitChar daysStr ',').filter (fun d => pyStrip d ≠ "")
    match parts.mapM pyInt with
    | none => [0, 1, 2, 3, 4, 5, 6]   -- int() raised ValueError
    | some days =>
      let valid_days := days.filter (fun d => 0 ≤ d ∧ d ≤ 6)
      if valid_days = [] then [0, 1, 2, 3, 4, 5, 6]
      else pySorted (fun a b => a ≤ b) (valid_days.map Int.toNat)

/-- `is_time_in_window` (maintenance.py): window membership, including
midnight-spanning windows when `start > end`. -/
def is_time_in_window (currentTime startTime endTime : TimeHM) : Bool :=
  if startTime.leb endTime then
    startTime.leb currentTime && currentTime.leb endTime
  else
    startTime.leb currentTime || currentTime.leb endTime

/-- `get_maintenance_config` (maintenance.py): the per-service window
(`{NAME}_MAINTENANCE_WINDOW` / `_DAYS`) takes precedence, then the global
window; `(none, [])` if neither is configured. -/
def get_maintenance_config (env : String → Option String) (serviceName : String) :
    Option (TimeHM × TimeHM) × List Nat :=
  let service_upper := pyUpper serviceName
  let window_str := pyStrip (pyGetenv env (service_upper ++ "_MAINTENANCE_WINDOW") "")
  let globalPart :=
    let global_window_str := pyStrip (pyGetenv env "GLOBAL_MAINTENANCE_WINDOW" "")
    if global_window_str ≠ "" then
      match parse_maintenance_window global_window_str with
      | some w => (some w, parse_maintenance_days (pyGetenv env "GLOBAL_MAINTENANCE_DAYS" ""))
      | none => (none, [])
    else (none, [])
  if window_str ≠ "" then
    match parse_maintenance_window window_str with
    | some w =>
      (some w, parse_maintenance_days (pyGetenv env (service_upper ++ "_MAINTENANCE_DAYS") ""))
    | none => globalPart
  else globalPart

/-- The `day_names` list of `is_in_maintenance_window`. -/
def dayNames : List String :=
  ["Monday", "Tuesday", "Wednesday", "Thursday", "Friday", "Saturday", "Sunday"]

/-- `is_in_maintenance_window` (maintenance.py): resolve the configured
window for the service, apply the day-of-week allow-list, then membership. -/
def is_in_maintenance_window (env : String → Option String) (serviceName : String)
    (now : Now) : Bool × String :=
  match get_maintenance_config env serviceName with
  | (none, _) => (false, "Not in maintenance window")
  | (some (startTime, endTime), allowed_days) =>
    let current_time_only := now.timeOfDay
    let current_day := now.weekday
    if current_day ∉ allowed_days then
      let dn := (dayNames.getD current_day "")
      (false, s!"Maintenance window configured but not for {dn}")
    else if is_time_in_window current_time_only startTime endTime then
      let dn := (dayNames.getD current_day "")
      let window_source :=
        if pyTruthy (env (pyUpper serviceName ++ "_MAINTENANCE_WINDOW")) then
          "Service-specific"
        else "Global"
      let sw := startTime.hhmm
      let ew := endTime.hhmm
      (true, s!"{window_source} window {sw}-{ew} on {dn}")
    else (false, "Not in maintenance window")

/-- `should_suppress_alert` (maintenance.py): the maintenance policy.
Hard rules first: `smart`/`raid` never suppressed, transitions to OK never
suppressed; otherwise suppress iff inside the resolved window. -/
def should_suppress_alert (env : String → Option String)
    (category name status : String) (now : Now) : Bool × String :=
  if category ∈ ["smart", "raid"] then
    (false, "Critical infrastructure alerts not suppressed")
  else if status = "OK" then
    (false, "Recovery alerts not suppressed")
  else
    match is_in_maintenance_window env name now with
    | (true, reason) => (true, s!"In maintenance window: {reason}")
    | (false, _) => (false, "Not in maintenance window")

/-! ## `app/alerts/sleep_schedule.py` -/

/-- `parse_sleep_time` (sleep_schedule.py): parse `"HH:MM"`, `none` on any
malformed input. -/
def parse_sleep_time (timeStr : String) : Option TimeHM :=
  if timeStr = "" then none
  else
    match pySplitChar (pyStrip timeStr) ':' with
    | [hs, ms] =>
      match pyInt hs, pyInt ms with
      | some hour, some minute =>
        if 0 ≤ hour ∧ hour ≤ 23 ∧ 0 ≤ minute ∧ minute ≤ 59 then
          some ⟨hour.toNat, minute.toNat⟩
        else none
      | _, _ => none
    | _ => none

/-- `get_sleep_schedule` (sleep_schedule.py): `(start, end, enabled)` from
`SLEEP_SCHEDULE_ENABLED` / `_START` / `_END`; disabled (with `none` times)
unless the flag is `"true"` and both times parse. -/
def get_sleep_schedule (env : String → Option String) :
    Option TimeHM × Option TimeHM × Bool :=
  let enabled := pyLower (pyGetenv env "SLEEP_SCHEDULE_ENABLED" "false") = "true"
  if ¬ enabled then (none, none, false)
  else
    let start_time := parse_sleep_time (pyGetenv env "SLEEP_SCHEDULE_START" "")
    let end_time := parse_sleep_time (pyGetenv env "SLEEP_SCHEDULE_END" "")
    match start_time, end_time with
    | some s, some e => (some s, some e, true)
    | _, _ => (none, none, false)

/-- `is_in_sleep_hours` (sleep_schedule.py): window membership of the sleep
schedule, with midnight-spanning handling as in the maintenance window.
(When `get_sleep_schedule` reports enabled, both times are present by
construction; the catch-all arm is unreachable.) -/
def is_in_sleep_hours (env : String → Option String) (now : Now) : Bool × String :=
  match get_sleep_schedule env with
  | (some start_time, some end_time, true) =>
    let t := now.timeOfDay
    let in_sleep :=
      if start_time.leb end_time then start_time.leb t && t.leb end_time
      else start_time.leb t || t.leb end_time
    if in_sleep then
      let sw := start_time.hhmm
      let ew := end_time.hhmm
      (true, s!"Sleep schedule active ({sw}-{ew})")
    else (false, "Outside sleep hours")
  | _ => (false, "Sleep schedule not enabled")

/-- `should_suppress_for_sleep` (sleep_schedule.py): while the sleep window
is active, suppress everything — including recoveries — unless
`SLEEP_ALLOW_CRITICAL_ALERTS` is set and the category is `smart`/`raid`. -/
def should_suppress_for_sleep (env : String → Option String)
    (category _name _status : String) (now : Now) : Bool × String :=
  match is_in_sleep_hours env now with
  | (false, _) => (false, "Outside sleep hours")
  | (true, reason) =>
    let allow_critical :=
      pyLower (pyGetenv env "SLEEP_ALLOW_CRITICAL_ALERTS" "false") = "true"
    if allow_critical ∧ category ∈ ["smart", "raid"] then
      (false, "Critical infrastructure alerts allowed during sleep")
    else
      (true, s!"Sleep schedule active: {reason}")

/-! ## `app/alerts/discord.py` -/

/-- `get_status_emoji` (discord.py). -/
def get_status_emoji (status : String) : String :=
  if status = "OK" then "🟢"
  else if status = "WARN" then "🟡"
  else if status = "FAIL" then "🔴"
  else "⚪"

/-- `get_status_color` (discord.py): OK green, WARN yellow, FAIL red,
anything else the WARN colour. -/
def get_status_color (status : String) : Nat :=
  if status = "OK" then 65280
  else if status = "WARN" then 16776960
  else if status = "FAIL" then 16711680
  else 16776960

/-- The `title` field built by `format_service_alert` (discord.py).  Only the
title flows back into the engine's persisted state
(`message = embed.get("title", "Alert")` in `process_alert`); the remaining
embed fields go only to the webhook. -/
def format_service_alert_title (serviceName newStatus : String) : String :=
  let emoji := get_status_emoji newStatus
  let service_title := pyTitle serviceName
  if newStatus = "FAIL" then s!"{emoji} Service Down: {service_title}"
  else if newStatus = "WARN" then s!"{emoji} Service Warning: {service_title}"
  else s!"{emoji} Service Recovered: {service_title}"

/-- The `title` field built by `format_system_alert` (discord.py). -/
def format_system_alert_title (metricName newStatus : String) : String :=
  let emoji := get_status_emoji newStatus
  let metric_title := pyTitle (pyReplaceChar metricName '_' ' ')
  if newStatus = "FAIL" then s!"{emoji} Critical: {metric_title}"
  else if newStatus = "WARN" then s!"{emoji} Warning: {metric_title}"
  else s!"{emoji} Recovered: {metric_title}"

/-- The `title` field built by `format_disk_alert` (discord.py). -/
def format_disk_alert_title (mountpoint newStatus : String) : String :=
  let emoji := get_status_emoji newStatus
  if newStatus = "FAIL" then s!"{emoji} Critical Disk Space: {mountpoint}"
  else if newStatus = "WARN" then s!"{emoji} Low Disk Space: {mountpoint}"
  else s!"{emoji} Disk Space Recovered: {mountpoint}"

/-- The observable outcome of the `requests.post` call in
`send_discord_webhook`: either a transport-level error (connection failure,
timeout — a `RequestException` before any response) or an HTTP response with
a final status code. -/
inductive HttpOutcome where
  | networkError
  | response (statusCode : Nat)
deriving DecidableEq, Repr

/-- `send_discord_webhook` (discord.py) as a function of the request
outcome: `response.raise_for_status()` raises `HTTPError` exactly for status
codes in `[400, 600)`, and every `RequestException` is caught and reported
as `False`; any other response returns `True`. -/
def send_discord_webhook (outcome : HttpOutcome) : Bool :=
  match outcome with
  | .networkError => false
  | .response code =>
    if (400 ≤ code ∧ code < 500) ∨ (500 ≤ code ∧ code < 600) then false
    else true

/-! ## `app/storage/db.py` and `app/storage/models.py`: the event log

The schema-v1.0.0 `events` table has no UNIQUE constraint on `event_key`
(migration `migrate_to_v100` removed it), so the `INSERT OR REPLACE` in
`insert_event` behaves as a plain append.  The log is modelled as a list in
insertion order; `ORDER BY ts DESC LIMIT 1` is the last matching element. -/

/-- A row of the `events` table. -/
structure EventRow where
  eventKey : String
  prevStatus : Option String
  newStatus : String
  message : String
  notified : Bool
  notifiedTs : Option Int
  maintenanceSuppressed : Bool
  sleepSuppressed : Bool
deriving DecidableEq, Repr

/-- A row of the `sleep_events` table.  `ts` is the time-of-day component of
the row's `CURRENT_TIMESTAMP`, which is all the digest consumes
(`strftime('%H:%M')`). -/
structure SleepEventRow where
  ts : TimeHM
  eventKey : String
  category : String
  name : String
  prevStatus : Option String
  newStatus : String
  message : String
deriving DecidableEq, Repr

/-- The persistent state the engine touches: the append-only event log and
the sleep-event queue, each in insertion order. -/
structure DB where
  events : List EventRow
  sleepEvents : List SleepEventRow
deriving Repr

/-- `get_latest_event_by_key` (db.py): the most recent row for the key. -/
def get_latest_event_by_key (events : List EventRow) (eventKey : String) :
    Option EventRow :=
  (events.filter (fun r => r.eventKey = eventKey)).getLast?

/-- `insert_event` (db.py): append a row; `notified` starts at 0 and
`notified_ts` at NULL for every inserted row. -/
def insert_event (events : List EventRow) (eventKey newStatus message : String)
    (prevStatus : Option String) (maintenanceSuppressed sleepSuppressed : Bool) :
    List EventRow :=
  events ++ [{ eventKey := eventKey, prevStatus := prevStatus,
               newStatus := newStatus, message := message,
               notified := false, notifiedTs := none,
               maintenanceSuppressed := maintenanceSuppressed,
               sleepSuppressed := sleepSuppressed }]

/-- `update_event_notified` (db.py): set `notified = 1` and stamp
`notified_ts` on the most recent row for the key, provided it is not yet
notified (`WHERE ... ts = MAX(ts) AND notified = 0`). -/
def update_event_notified (events : List EventRow) (eventKey : String)
    (now : Int) : List EventRow :=
  match events with
  | [] => []
  | r :: rest =>
    if r.eventKey = eventKey ∧ (rest.filter (fun x => x.eventKey = eventKey)) = [] then
      (if r.notified = false then
        { r with notified := true, notifiedTs := some now }
       else r) :: rest
    else
      r :: update_event_notified rest eventKey now

/-! ## `generate_morning_summary` (sleep_schedule.py) -/

/-- A field of a Discord embed. -/
structure Field where
  name : String
  value : String
  inline : Bool
deriving DecidableEq, Repr

/-- A Discord embed, restricted to the parts the digest logic computes.
(The `timestamp` entry is the wall-clock instant of generation and carries
no engine state; it is not modelled.) -/
structure Embed where
  title : String
  description : String
  color : Nat
  fields : List Field
deriving DecidableEq, Repr

/-- `activity_lines[-10:]`. -/
def listTakeLast {α : Type} (n : Nat) (l : List α) : List α :=
  l.drop (l.length - n)

/-- One line of the digest's activity log:
`f"{status_emoji} {hour} - {name}: {prev} → {new}"` with a green dot for OK
rows and a red dot otherwise, and `?` for a falsy previous status. -/
def sleepActivityLine (hour : String) (e : SleepEventRow) : String :=
  let status_emoji := if e.newStatus = "OK" then "🟢" else "🔴"
  let prev := match e.prevStatus with
    | some p => if p = "" then "?" else p
    | none => "?"
  let new := e.newStatus
  let name := e.name
  s!"{status_emoji} {hour} - {name}: {prev} → {new}"

/-- One line of the digest's ongoing-issues section:
`f"• {name}: {status}"`. -/
def sleepIssueLine (e : SleepEventRow) : String :=
  let name := e.name
  let st := e.newStatus
  s!"• {name}: {st}"

/-- The `activity_lines` list of `generate_morning_summary`: events grouped
by their HH:MM timestamp (an insertion-ordered dict of lists), emitted in
sorted hour order. -/
def activityLines (events : List SleepEventRow) : List String :=
  let hours := (events.map (fun e => e.ts.hhmm)).dedup
  let sorted_hours := pySorted pyStrLe hours
  sorted_hours.flatMap (fun h =>
    (events.filter (fun e => e.ts.hhmm = h)).map (sleepActivityLine h))

/-- The "📊 Activity Overview" field of the activity digest. -/
def overviewField (events : List SleepEventRow) : Field :=
  let service_events := events.filter (fun e => e.category = "service")
  let ongoing_issues := events.filter (fun e => e.newStatus ≠ "OK")
  let nEvents := events.length
  let nService := service_events.length
  let nOngoing := ongoing_issues.length
  { name := "📊 Activity Overview"
    value := s!"• {nEvents} events logged\n• {nService} service events\n• {nOngoing} ongoing issues"
    inline := false }

/-- The "✅ Activity Log" field of the activity digest (absent when there
are no activity lines): the last 10 lines, with a truncation banner when
more were logged. -/
def activityLogFields (events : List SleepEventRow) : List Field :=
  if activityLines events = [] then []
  else
    let joined := pyJoin "\n" (listTakeLast 10 (activityLines events))
    let nLines := (activityLines events).length
    let activity_text :=
      if (activityLines events).length > 10 then
        s!"*(Showing last 10 of {nLines} events)*\n\n" ++ joined
      else joined
    [ { name := "✅ Activity Log", value := activity_text, inline := false : Field } ]

/-- The final field of the activity digest: "⚠️ Ongoing Issues" listing the
first five not-OK entries when any exist, else "🟢 Current Status". -/
def ongoingOrStatusField (events : List SleepEventRow) : Field :=
  let ongoing_issues := events.filter (fun e => e.newStatus ≠ "OK")
  if ongoing_issues ≠ [] then
    { name := "⚠️ Ongoing Issues"
      value := pyJoin "\n" ((ongoing_issues.take 5).map sleepIssueLine)
      inline := false }
  else
    { name := "🟢 Current Status"
      value := "All systems operational"
      inline := false }

/-- `generate_morning_summary` (sleep_schedule.py).  Takes the queued
`sleep_events` rows (in `ts ASC` = insertion order, as returned by
`get_sleep_events`) and produces the embed, if any, together with the queue
contents afterwards.  The queue is cleared inside this function — before any
delivery attempt, which happens downstream in `check_morning_summary` — so
the cleared queue is independent of delivery success.  The field
construction of the activity variant is factored into the named helpers
above; the computation is exactly the source's. -/
def generate_morning_summary (env : String → Option String)
    (queue : List SleepEventRow) : Option Embed × List SleepEventRow :=
  match get_sleep_schedule env with
  | (some start_time, some end_time, true) =>
    let summary_enabled := pyLower (pyGetenv env "SLEEP_SUMMARY_ENABLED" "true") = "true"
    if ¬ summary_enabled then (none, queue)
    else
      let sw := start_time.hhmm
      let ew := end_time.hhmm
      match queue with
      | [] =>
        -- No activity overnight: the "quiet night" variant; the (empty)
        -- queue is still cleared.
        let embed : Embed :=
          { title := "🌅 Good Morning!"
            description := s!"Period: {sw} - {ew}"
            color := 0x00FF00
            fields :=
              [ { name := "✨ Quiet Night"
                  value := "No events logged during sleep hours"
                  inline := false },
                { name := "🟢 Current Status"
                  value := "All systems operational"
                  inline := false } ] }
        (some embed, [])
      | e0 :: erest =>
        let events := e0 :: erest
        let ongoing_issues := events.filter (fun e => e.newStatus ≠ "OK")
        let embed : Embed :=
          { title := "🌅 Overnight Activity Summary"
            description := s!"Period: {sw} - {ew}"
            color := if ongoing_issues ≠ [] then 0xFFA500 else 0x00FF00
            fields := [overviewField events] ++ activityLogFields events
              ++ [ongoingOrStatusField events] }
        (some embed, [])
  | _ => (none, queue)

/-- Look up an embed field by name (for stating properties of the digest). -/
def embedFieldValue (e : Embed) (fieldName : String) : Option String :=
  (e.fields.find? (fun f => f.name = fieldName)).map (fun f => f.value)

/-! ## `process_alert` (rules.py)

The module-level constants are read back from the environment exactly as
at module load (`ALERTS_ENABLED`, `DISCORD_WEBHOOK_URL`); `cooldownMinutes`
stands for `ALERT_COOLDOWN_MINUTES`.  The outcome of `send_alert_async` is
the `deliverySucceeds` oracle; the enclosing `try/except` (which converts
any raised exception into a `False` return) is inherent in the embedding
being a total function. -/

/-- `process_alert` (rules.py): the alert decision engine.  Returns the
`sent` boolean together with the resulting persistent state. -/
def process_alert (env : String → Option String) (cooldownMinutes : Int)
    (now : Now) (deliverySucceeds : Bool) (db : DB)
    (category name newStatus : String) : Bool × DB :=
  let alertsEnabled := pyLower (pyGetenv env "ALERTS_ENABLED" "true") = "true"
  let webhookUrl := pyGetenv env "DISCORD_WEBHOOK_URL" ""
  if ¬ alertsEnabled then (false, db)
  else if webhookUrl = "" then (false, db)
  else
    let event_key := generate_event_key category name
    let last_event := get_latest_event_by_key db.events event_key
    let prev_status := last_event.map (fun r => r.newStatus)
    -- `last_notified_ts` is read from the single most recent row only;
    -- `datetime.now() - last_notified` is the elapsed seconds.
    let elapsed := (last_event.bind (fun r => r.notifiedTs)).map (fun t => now.epoch - t)
    if ¬ should_alert prev_status newStatus elapsed cooldownMinutes then
      (false, db)
    else
      match should_suppress_alert env category name newStatus now with
      | (true, _reason) =>
        -- Maintenance suppression: record the state change, flagged, and
        -- return False without delivering.
        let prevDisplay := match prev_status with
          | some p => if p = "" then "Unknown" else p
          | none => "Unknown"
        let message := s!"{name}: {prevDisplay} → {newStatus}"
        (false, { db with
          events := insert_event db.events event_key newStatus message prev_status true false })
      | (false, _) =>
        let title :=
          if category = "service" then format_service_alert_title name newStatus
          else if category = "disk" then format_disk_alert_title name newStatus
          else format_system_alert_title name newStatus
        if deliverySucceeds then
          let events1 := insert_event db.events event_key newStatus title prev_status false false
          (true, { db with events := update_event_notified events1 event_key now.epoch })
        else
          -- Delivery failed: log and return False; nothing is written, so
          -- the next qualifying observation retries.
          (false, db)

/-- One scheduler-driven call into the engine: an observation plus the
instant it arrives and the delivery outcome the webhook would produce. -/
structure ObsStep where
  category : String
  name : String
  newStatus : String
  deliverySucceeds : Bool
  now : Now
deriving Repr

/-- Run a sequence of `process_alert` calls against the store. -/
def runAlerts (env : String → Option String) (cooldownMinutes : Int)
    (steps : List ObsStep) (db : DB) : DB :=
  steps.foldl
    (fun d s =>
      (process_alert env cooldownMinutes s.now s.deliverySucceeds d
        s.category s.name s.newStatus).2)
    db

/-! ## Spec-level predicates used in theorem statements -/

/-- Specification-level ordering on times of day ("start ≤ end" in the
spec's window-membership formula): lexicographic on (hour, minute). -/
def timeLE (a b : TimeHM) : Prop :=
  a.hour < b.hour ∨ (a.hour = b.hour ∧ a.minute ≤ b.minute)

instance : DecidablePred (fun p : TimeHM × TimeHM => timeLE p.1 p.2) :=
  fun _ => by unfold timeLE; infer_instance

/-- The boolean comparison of the code agrees with the spec-level order. -/
theorem leb_iff_timeLE (a b : TimeHM) : a.leb b = true ↔ timeLE a b := by
  unfold TimeHM.leb timeLE
  simp [Bool.or_eq_true, Bool.and_eq_true, decide_eq_true_eq]

/-- Per-key trace of recorded statuses, in insertion order. -/
def keyStatuses (events : List EventRow) (key : String) : List String :=
  (events.filter (fun r => r.eventKey = key)).map (fun r => r.newStatus)

/-- No two adjacent elements are equal. -/
def noAdjDup : List String → Bool
  | [] => true
  | [_] => true
  | a :: b :: rest => (a ≠ b : Bool) && noAdjDup (b :: rest)

/-! ## Claim theorems -/

/-- C9 (counterexample): the claim says the event key starts with
`lowercase(category)`, but `generate_event_key` lowercases only the name.
With category `"SMART"` the derived key is `"SMART_sda"`, not
`"smart_sda"`. -/
theorem generate_event_key_category_case_counterexample :
    generate_event_key "SMART" "sda" ≠
      pyLower "SMART" ++ "_" ++ pyLower (pyReplaceChar "sda" ' ' '_') := by
  decide

/-- C9 (amended): for every category string and name string, the derived
event key equals the category as given (not lowercased) + `"_"` +
lowercase(name with spaces replaced by underscores); on the documented
examples this yields `service_plex`, `system_cpu`, `disk_/mnt/array`. -/
theorem generate_event_key_spec :
    (∀ category name : String,
      generate_event_key category name =
        category ++ "_" ++ pyLower (pyReplaceChar name ' ' '_'))
    ∧ generate_event_key "service" "plex" = "service_plex"
    ∧ generate_event_key "system" "CPU" = "system_cpu"
    ∧ generate_event_key "disk" "/mnt/Array" = "disk_/mnt/array" := by
  exact ⟨fun category name => rfl, by decide, by decide, by decide⟩

/-- C2 (counterexample): the claim makes the improved-but-not-OK case alert
iff *more than* the cooldown has elapsed; at exactly the cooldown boundary
(1800 s elapsed, 30-minute cooldown) the code alerts although no more than
the cooldown has elapsed, so the claimed iff fails there. -/
theorem should_alert_cooldown_boundary_counterexample :
    ¬ (should_alert (some "FAIL") "WARN" (some 1800) 30 = true ↔
        (1800 : Int) > 30 * 60) := by
  decide

/-- C2 (amended): state-change gating returns true on first-ever detection
(any status); false when the status is unchanged; true for any transition to
OK; true when the status strictly worsened in the order OK < WARN < FAIL;
and in the improved-but-not-OK case (FAIL→WARN) true iff at least the
configured cooldown has elapsed since `last_notified_ts`, or no such
timestamp exists. -/
theorem should_alert_spec (p n : String) (e : Option Int) (c : Int) :
    should_alert none n e c = true
    ∧ should_alert (some p) p e c = false
    ∧ should_alert (some "WARN") "OK" e c = true
    ∧ should_alert (some "FAIL") "OK" e c = true
    ∧ should_alert (some "OK") "WARN" e c = true
    ∧ should_alert (some "OK") "FAIL" e c = true
    ∧ should_alert (some "WARN") "FAIL" e c = true
    ∧ (should_alert (some "FAIL") "WARN" e c = true ↔
        e = none ∨ ∃ t, e = some t ∧ c * 60 ≤ t) := by
  refine ⟨rfl, ?_, rfl, rfl, rfl, rfl, rfl, ?_⟩
  · simp [should_alert]
  · cases e with
    | none => simp [should_alert, statusOrderGet]
    | some t =>
      show (if t < c * 60 then false else true) = true ↔ _
      rcases lt_or_le t (c * 60) with h | h
      · simp only [if_pos h]
        constructor
        · intro hf
          exact absurd hf (by simp)
        · rintro (hne | ⟨t', ht', hc⟩)
          · exact absurd hne (by simp)
          · rw [Option.some_inj] at ht'
            omega
      · simp only [if_neg (not_lt.mpr h)]
        exact iff_of_true trivial (Or.inr ⟨t, rfl, h⟩)

/-- C3: with grace threshold 3, prev_status staying OK and the pending map
initially empty, the sequence FAIL, FAIL, OK yields proceed = false, false,
true with the pending map left empty (and the OK then fails state-change
gating, so the flap produces no bad-status notification); the sequence FAIL,
FAIL, FAIL yields proceed = false, false, true — a single proceed at the
third consecutive FAIL — with the pending state deleted. -/
theorem grace_period_flap_and_sustain :
    (check_grace_period 3 0 [] "service_plex" "FAIL" (some "OK")).1 = false
    ∧ (check_grace_period 3 0
        (check_grace_period 3 0 [] "service_plex" "FAIL" (some "OK")).2.2
        "service_plex" "FAIL" (some "OK")).1 = false
    ∧ (check_grace_period 3 0
        (check_grace_period 3 0
          (check_grace_period 3 0 [] "service_plex" "FAIL" (some "OK")).2.2
          "service_plex" "FAIL" (some "OK")).2.2
        "service_plex" "OK" (some "OK")).1 = true
    ∧ (check_grace_period 3 0
        (check_grace_period 3 0
          (check_grace_period 3 0 [] "service_plex" "FAIL" (some "OK")).2.2
          "service_plex" "FAIL" (some "OK")).2.2
        "service_plex" "OK" (some "OK")).2.2 = []
    ∧ should_alert (some "OK") "OK" none 30 = false
    ∧ (check_grace_period 3 0
        (check_grace_period 3 0
          (check_grace_period 3 0 [] "service_plex" "FAIL" (some "OK")).2.2
          "service_plex" "FAIL" (some "OK")).2.2
        "service_plex" "FAIL" (some "OK")).1 = true
    ∧ (check_grace_period 3 0
        (check_grace_period 3 0
          (check_grace_period 3 0 [] "service_plex" "FAIL" (some "OK")).2.2
          "service_plex" "FAIL" (some "OK")).2.2
        "service_plex" "FAIL" (some "OK")).2.2 = [] := by
  decide

/-- C8: window membership is `start ≤ now ≤ end` when `start ≤ end`, and
`now ≥ start ∨ now ≤ end` when the window spans midnight (`start > end`);
the window string `"23:45-00:15"` parses to (23:45, 00:15) and the window
contains 00:05 and 23:50 while excluding 00:20 and 23:40. -/
theorem is_time_in_window_spec (now s e : TimeHM) :
    (is_time_in_window now s e = true ↔
      ((timeLE s e ∧ timeLE s now ∧ timeLE now e)
        ∨ (¬ timeLE s e ∧ (timeLE s now ∨ timeLE now e))))
    ∧ parse_maintenance_window "23:45-00:15" = some (⟨23, 45⟩, ⟨0, 15⟩)
    ∧ is_time_in_window ⟨0, 5⟩ ⟨23, 45⟩ ⟨0, 15⟩ = true
    ∧ is_time_in_window ⟨23, 50⟩ ⟨23, 45⟩ ⟨0, 15⟩ = true
    ∧ is_time_in_window ⟨0, 20⟩ ⟨23, 45⟩ ⟨0, 15⟩ = false
    ∧ is_time_in_window ⟨23, 40⟩ ⟨23, 45⟩ ⟨0, 15⟩ = false := by
  refine ⟨?_, by decide, by decide, by decide, by decide, by decide⟩
  unfold is_time_in_window
  by_cases hse : timeLE s e
  · rw [if_pos ((leb_iff_timeLE s e).mpr hse)]
    simp [Bool.and_eq_true, leb_iff_timeLE, hse]
  · rw [if_neg (fun hb => hse ((leb_iff_timeLE s e).mp hb))]
    simp [Bool.or_eq_true, leb_iff_timeLE, hse]

/-- C6: the maintenance policy never suppresses categories `smart`/`raid`
and never suppresses a transition to OK, whatever the name, time and
window/day configuration — the hard rules are decided before any
window-membership check (the result does not depend on `env` or `now`). -/
theorem should_suppress_alert_hard_rules (env : String → Option String)
    (category name status : String) (now : Now)
    (h : category ∈ ["smart", "raid"] ∨ status = "OK") :
    (should_suppress_alert env category name status now).1 = false := by
  unfold should_suppress_alert
  rcases h with h | h
  · rw [if_pos h]
  · by_cases hc : category ∈ ["smart", "raid"]
    · rw [if_pos hc]
    · rw [if_neg hc, if_pos h]

/-- Witness for C6: a `smart` FAIL and a `service` recovery, each inside a
configured global maintenance window, are both not suppressed. -/
theorem should_suppress_alert_hard_rules_witness :
    (should_suppress_alert (fun k => if k = "GLOBAL_MAINTENANCE_WINDOW" then some "00:00-23:59" else none)
      "smart" "sda" "FAIL" ⟨0, ⟨3, 0⟩, 0⟩).1 = false
    ∧ (should_suppress_alert (fun k => if k = "GLOBAL_MAINTENANCE_WINDOW" then some "00:00-23:59" else none)
      "service" "plex" "OK" ⟨0, ⟨3, 0⟩, 0⟩).1 = false :=
  ⟨should_suppress_alert_hard_rules _ "smart" "sda" "FAIL" _ (Or.inl (by decide)),
   should_suppress_alert_hard_rules _ "service" "plex" "OK" _ (Or.inr rfl)⟩

/-- A night-time environment: sleep schedule 00:00–07:30 enabled with
allow-critical false, webhook configured, no maintenance windows. -/
def sleepNightEnv : String → Option String := fun k =>
  if k = "DISCORD_WEBHOOK_URL" then some "https://discord.example/webhook"
  else if k = "SLEEP_SCHEDULE_ENABLED" then some "true"
  else if k = "SLEEP_SCHEDULE_START" then some "00:00"
  else if k = "SLEEP_SCHEDULE_END" then some "07:30"
  else if k = "SLEEP_ALLOW_CRITICAL_ALERTS" then some "false"
  else none

/-- 03:00 on a Wednesday, epoch second 1000. -/
def now3am : Now := ⟨1000, ⟨3, 0⟩, 2⟩

/-- An event log in which service `plex` is currently FAIL. -/
def dbPlexDown : DB :=
  ⟨[{ eventKey := "service_plex", prevStatus := some "OK", newStatus := "FAIL",
      message := "🔴 Service Down: Plex", notified := false, notifiedTs := none,
      maintenanceSuppressed := false, sleepSuppressed := false }], []⟩

/-- C1 (code_bug evaluation): during an active sleep window (00:00–07:30 at
03:00) with allow-critical = false, the sleep policy
(`should_suppress_for_sleep`) does flag a `service` FAIL→OK recovery for
suppression — but `process_alert` never consults the sleep schedule: it
delivers the recovery immediately (returns true), appends an Event row with
`sleep_suppressed = false` marked notified, and enqueues nothing in the
sleep-event queue. -/
theorem process_alert_ignores_sleep_schedule :
    (should_suppress_for_sleep sleepNightEnv "service" "plex" "OK" now3am).1 = true
    ∧ (process_alert sleepNightEnv 30 now3am true dbPlexDown "service" "plex" "OK").1 = true
    ∧ (process_alert sleepNightEnv 30 now3am true dbPlexDown "service" "plex" "OK").2.sleepEvents = []
    ∧ ((process_alert sleepNightEnv 30 now3am true dbPlexDown "service" "plex" "OK").2.events.map
        (fun r => (r.eventKey, r.newStatus, r.sleepSuppressed, r.notified)))
      = [("service_plex", "FAIL", false, false), ("service_plex", "OK", false, true)] := by
  decide

/-- C7 (counterexample): the claim counts every non-2xx response as a
delivery failure, but `response.raise_for_status()` raises only for status
codes ≥ 400; a 304 response — which is not 2xx — is reported as success. -/
theorem send_webhook_non2xx_counterexample :
    send_discord_webhook (HttpOutcome.response 304) = true ∧ ¬ (304 / 100 = 2) := by
  decide

/-- C7 (amended): delivery failure means a network error or an HTTP error
status in [400, 600) (the `raise_for_status` classes), and is reported as
the boolean false, never as an exception; when delivery fails on the
non-suppressed path, `process_alert` returns false and leaves the store
untouched — no event row is written and nothing is marked notified, so the
next qualifying observation retries instead of being blocked by a stale
cooldown timestamp. -/
theorem delivery_failure_handling (env : String → Option String)
    (cooldownMinutes : Int) (now : Now) (db : DB)
    (category name status : String)
    (hsup : (should_suppress_alert env category name status now).1 = false) :
    (∀ outcome, send_discord_webhook outcome = false ↔
      (outcome = HttpOutcome.networkError
        ∨ ∃ code, outcome = HttpOutcome.response code ∧ 400 ≤ code ∧ code < 600))
    ∧ process_alert env cooldownMinutes now false db category name status = (false, db) := by
  constructor
  · intro outcome
    cases outcome with
    | networkError => simp [send_discord_webhook]
    | response code =>
      by_cases hc : (400 ≤ code ∧ code < 500) ∨ (500 ≤ code ∧ code < 600)
      · simp only [send_discord_webhook, if_pos hc]
        exact iff_of_true trivial (Or.inr ⟨code, rfl, by omega⟩)
      · simp only [send_discord_webhook, if_neg hc]
        constructor
        · intro h
          exact absurd h (by simp)
        · rintro (h | ⟨c, hcode, h1, h2⟩)
          · exact absurd h (by simp)
          · injection hcode with hcode
            omega
  · rcases hq : should_suppress_alert env category name status now with ⟨b, reason⟩
    have hb : b = false := by rw [hq] at hsup; exact hsup
    subst hb
    simp only [process_alert, hq]
    split
    · rfl
    · split
      · rfl
      · split
        · rfl
        · rfl

/-- Witness for C7: a concrete delivery failure for a non-suppressed
`service` FAIL observation returns false with the store unchanged. -/
theorem delivery_failure_handling_witness :
    process_alert (fun k => if k = "DISCORD_WEBHOOK_URL" then some "https://d.example/w" else none)
      30 ⟨0, ⟨12, 0⟩, 0⟩ false ⟨[], []⟩ "service" "plex" "FAIL" = (false, ⟨[], []⟩) :=
  (delivery_failure_handling
    (fun k => if k = "DISCORD_WEBHOOK_URL" then some "https://d.example/w" else none)
    30 ⟨0, ⟨12, 0⟩, 0⟩ ⟨[], []⟩ "service" "plex" "FAIL" (by decide)).2

/-- An environment with only the webhook configured. -/
def plainWebhookEnv : String → Option String := fun k =>
  if k = "DISCORD_WEBHOOK_URL" then some "https://discord.example/webhook" else none

/-- An event log for `service_plex` whose older row was notified recently
(epoch 4900) and whose most recent row is a maintenance-suppressed FAIL that
was never notified. -/
def dbSuppressedLatest : DB :=
  ⟨[{ eventKey := "service_plex", prevStatus := some "OK", newStatus := "WARN",
      message := "🟡 Service Warning: Plex", notified := true, notifiedTs := some 4900,
      maintenanceSuppressed := false, sleepSuppressed := false },
    { eventKey := "service_plex", prevStatus := some "WARN", newStatus := "FAIL",
      message := "plex: WARN → FAIL", notified := false, notifiedTs := none,
      maintenanceSuppressed := true, sleepSuppressed := false }], []⟩

/-- C10: every row written by `insert_event` starts with `notified = 0` and
a NULL `notified_ts`; and `process_alert` reads `last_notified_ts` only from
the single most recent row for the key, so when that row is a never-notified
(suppressed) record, an improved-but-not-OK observation (FAIL→WARN) passes
the cooldown branch of gating and proceeds to delivery — whatever the
cooldown and whatever notifications older rows carry. -/
theorem unnotified_latest_row_bypasses_cooldown :
    (∀ events eventKey newStatus message prevStatus ms ss,
      ∃ r, (insert_event events eventKey newStatus message prevStatus ms ss).getLast? = some r
        ∧ r.notified = false ∧ r.notifiedTs = none)
    ∧ (∀ (env : String → Option String) (cooldownMinutes : Int) (now : Now)
        (d : Bool) (db : DB) (category name : String),
        pyLower (pyGetenv env "ALERTS_ENABLED" "true") = "true" →
        pyGetenv env "DISCORD_WEBHOOK_URL" "" ≠ "" →
        (∃ r, get_latest_event_by_key db.events (generate_event_key category name) = some r
          ∧ r.newStatus = "FAIL" ∧ r.notifiedTs = none) →
        (should_suppress_alert env category name "WARN" now).1 = false →
        (process_alert env cooldownMinutes now d db category name "WARN").1 = d) := by
  constructor
  · intro events eventKey newStatus message prevStatus ms ss
    refine ⟨{ eventKey := eventKey, prevStatus := prevStatus, newStatus := newStatus,
              message := message, notified := false, notifiedTs := none,
              maintenanceSuppressed := ms, sleepSuppressed := ss }, ?_, rfl, rfl⟩
    exact List.getLast?_concat _
  · intro env cooldownMinutes now d db category name h1 h2 hl hsup
    obtain ⟨r, hr, hrs, hrt⟩ := hl
    rcases hq : should_suppress_alert env category name "WARN" now with ⟨b, reason⟩
    have hb : b = false := by rw [hq] at hsup; exact hsup
    subst hb
    simp only [process_alert, hq, hr, Option.map_some', Option.some_bind, hrs, hrt,
      Option.map_none']
    rw [if_neg (fun hn => hn h1), if_neg h2, if_neg (fun hn => hn rfl)]
    cases d <;> rfl

/-- Witness for C10: with a 30-minute cooldown, a notification delivered 100
seconds ago on an older row, and a maintenance-suppressed FAIL as the most
recent row, the next FAIL→WARN observation is delivered. -/
theorem unnotified_latest_row_bypasses_cooldown_witness :
    (process_alert plainWebhookEnv 30 ⟨5000, ⟨12, 0⟩, 0⟩ true dbSuppressedLatest
      "service" "plex" "WARN").1 = true :=
  unnotified_latest_row_bypasses_cooldown.2 plainWebhookEnv 30 ⟨5000, ⟨12, 0⟩, 0⟩ true
    dbSuppressedLatest "service" "plex" (by decide) (by decide)
    ⟨{ eventKey := "service_plex", prevStatus := some "WARN", newStatus := "FAIL",
       message := "plex: WARN → FAIL", notified := false, notifiedTs := none,
       maintenanceSuppressed := true, sleepSuppressed := false }, by decide, rfl, rfl⟩
    (by decide)

/-! ### Helper lemmas for the append-only event-log invariant -/

theorem keyStatuses_cons (r : EventRow) (l : List EventRow) (key : String) :
    keyStatuses (r :: l) key
      = (if r.eventKey = key then [r.newStatus] else []) ++ keyStatuses l key := by
  unfold keyStatuses
  by_cases h : r.eventKey = key
  · simp [List.filter_cons, h]
  · simp [List.filter_cons, h]

theorem keyStatuses_append (l : List EventRow) (r : EventRow) (key : String) :
    keyStatuses (l ++ [r]) key
      = keyStatuses l key ++ (if r.eventKey = key then [r.newStatus] else []) := by
  unfold keyStatuses
  rw [List.filter_append, List.map_append]
  congr 1
  by_cases h : r.eventKey = key
  · simp [List.filter_cons, h]
  · simp [List.filter_cons, h]

theorem keyStatuses_getLast? (l : List EventRow) (key : String) :
    (keyStatuses l key).getLast?
      = (get_latest_event_by_key l key).map (fun r => r.newStatus) := by
  unfold keyStatuses get_latest_event_by_key
  rw [List.getLast?_map]

theorem update_event_notified_keyStatuses (l : List EventRow) (k : String)
    (t : Int) (key : String) :
    keyStatuses (update_event_notified l k t) key = keyStatuses l key := by
  induction l with
  | nil => rfl
  | cons r rest ih =>
    simp only [update_event_notified]
    split
    · rw [keyStatuses_cons, keyStatuses_cons]
      congr 1
      by_cases hn : r.notified = false <;> simp [hn]
    · rw [keyStatuses_cons, keyStatuses_cons, ih]

theorem noAdjDup_concat (l : List String) (s : String)
    (h : noAdjDup l = true) (hl : ∀ x, l.getLast? = some x → x ≠ s) :
    noAdjDup (l ++ [s]) = true := by
  induction l with
  | nil => rfl
  | cons a rest ih =>
    cases rest with
    | nil =>
      have hne : a ≠ s := hl a rfl
      simp [noAdjDup, hne]
    | cons b rest2 =>
      simp only [List.cons_append]
      rw [noAdjDup] at h ⊢
      rw [Bool.and_eq_true] at h ⊢
      refine ⟨h.1, ?_⟩
      rw [← List.cons_append]
      exact ih h.2 (fun x hx => hl x (by rw [List.getLast?_cons_cons]; exact hx))

theorem should_alert_true_ne (prev newStatus : String) (e : Option Int) (c : Int)
    (h : should_alert (some prev) newStatus e c = true) : prev ≠ newStatus := by
  intro hpn
  subst hpn
  simp [should_alert] at h

theorem append_row_preserves_noAdjDup (events : List EventRow) (key : String)
    (r : EventRow)
    (h : noAdjDup (keyStatuses events key) = true)
    (hne : ∀ r0, get_latest_event_by_key events r.eventKey = some r0 →
      r0.newStatus ≠ r.newStatus) :
    noAdjDup (keyStatuses (events ++ [r]) key) = true := by
  rw [keyStatuses_append]
  by_cases hk : r.eventKey = key
  · rw [if_pos hk]
    apply noAdjDup_concat _ _ h
    intro x hx
    rw [keyStatuses_getLast?] at hx
    cases hg : get_latest_event_by_key events key with
    | none => rw [hg] at hx; simp at hx
    | some r0 =>
      rw [hg] at hx
      simp only [Option.map_some', Option.some_inj] at hx
      rw [← hx]
      exact hne r0 (by rw [hk]; exact hg)
  · rw [if_neg hk, List.append_nil]
    exact h

theorem process_alert_preserves_noAdjDup (env : String → Option String)
    (cooldownMinutes : Int) (now : Now) (d : Bool) (db : DB)
    (category name newStatus key : String)
    (h : noAdjDup (keyStatuses db.events key) = true) :
    noAdjDup (keyStatuses
      (process_alert env cooldownMinutes now d db category name newStatus).2.events
      key) = true := by
  simp only [process_alert]
  split
  · exact h
  split
  · exact h
  split
  · exact h
  rename_i hgate
  have hgate' :
      should_alert
        (Option.map (fun r => r.newStatus)
          (get_latest_event_by_key db.events (generate_event_key category name)))
        newStatus
        (Option.map (fun t => now.epoch - t)
          ((get_latest_event_by_key db.events (generate_event_key category name)).bind
            (fun r => r.notifiedTs)))
        cooldownMinutes = true := not_not.mp hgate
  have hne : ∀ r0,
      get_latest_event_by_key db.events (generate_event_key category name) = some r0 →
      r0.newStatus ≠ newStatus := by
    intro r0 hg
    rw [hg] at hgate'
    exact should_alert_true_ne _ _ _ _ hgate'
  split
  · exact append_row_preserves_noAdjDup _ _ _ h hne
  · split
    · rw [update_event_notified_keyStatuses]
      exact append_row_preserves_noAdjDup _ _ _ h hne
    · exact h

/-- C4: starting from an empty event log, for every sequence of
`process_alert` calls — whatever the observations, times, delivery outcomes
and configuration — no two consecutive Event rows for the same key carry the
same `new_status`: rows are appended only when the observed status differs
from the most recent row for that key, so no-op transitions are never
recorded. -/
theorem no_consecutive_duplicate_statuses (env : String → Option String)
    (cooldownMinutes : Int) (steps : List ObsStep) (key : String) :
    noAdjDup (keyStatuses
      (runAlerts env cooldownMinutes steps ⟨[], []⟩).events key) = true := by
  suffices hgen : ∀ db : DB, noAdjDup (keyStatuses db.events key) = true →
      noAdjDup (keyStatuses (runAlerts env cooldownMinutes steps db).events key) = true by
    exact hgen ⟨[], []⟩ rfl
  induction steps with
  | nil => intro db h; exact h
  | cons s rest ih =>
    intro db h
    exact ih _ (process_alert_preserves_noAdjDup env cooldownMinutes s.now
      s.deliverySucceeds db s.category s.name s.newStatus key h)

/-! ### Helper lemmas and inputs for the morning digest -/

theorem find?_all_false_append_single (p : Field → Bool) (l : List Field)
    (t : Field) (hl : ∀ f ∈ l, p f = false) :
    List.find? p (l ++ [t]) = if p t = true then some t else none := by
  induction l with
  | nil =>
    cases hpt : p t <;> simp [List.find?, hpt]
  | cons a rest ih =>
    have ha : p a = false := hl a (by simp)
    simp only [List.cons_append, List.find?, ha]
    exact ih (fun f hf => hl f (by simp [hf]))

theorem digest_head_fields_not_ongoing (events : List SleepEventRow) :
    ∀ f ∈ [overviewField events] ++ activityLogFields events,
      decide (f.name = "⚠️ Ongoing Issues") = false := by
  intro f hf
  rw [List.mem_append] at hf
  rcases hf with hf | hf
  · rw [List.mem_singleton] at hf
    subst hf
    rfl
  · unfold activityLogFields at hf
    split at hf
    · simp at hf
    · rw [List.mem_singleton] at hf
      subst hf
      rfl

theorem ongoingOrStatusField_of_empty (events : List SleepEventRow)
    (h : events.filter (fun e => e.newStatus ≠ "OK") = []) :
    ongoingOrStatusField events =
      { name := "🟢 Current Status", value := "All systems operational",
        inline := false } := by
  simp only [ongoingOrStatusField]
  rw [if_neg (fun hc => hc h)]

theorem ongoingOrStatusField_of_nonempty (events : List SleepEventRow)
    (h : events.filter (fun e => e.newStatus ≠ "OK") ≠ []) :
    ongoingOrStatusField events =
      { name := "⚠️ Ongoing Issues"
        value := pyJoin "\n"
          (((events.filter (fun e => e.newStatus ≠ "OK")).take 5).map sleepIssueLine)
        inline := false } := by
  simp only [ongoingOrStatusField]
  rw [if_pos h]

/-- A sleep schedule 00:00–07:30 with the morning summary left enabled
(its flag defaults to `"true"`). -/
def morningEnv : String → Option String := fun k =>
  if k = "SLEEP_SCHEDULE_ENABLED" then some "true"
  else if k = "SLEEP_SCHEDULE_START" then some "00:00"
  else if k = "SLEEP_SCHEDULE_END" then some "07:30"
  else none

/-- Six queued sleep events, all still FAIL. -/
def sixFailQueue : List SleepEventRow :=
  [⟨⟨1, 0⟩, "service_f1", "service", "f1", some "OK", "FAIL", "m"⟩,
   ⟨⟨1, 5⟩, "service_f2", "service", "f2", some "OK", "FAIL", "m"⟩,
   ⟨⟨1, 10⟩, "service_f3", "service", "f3", some "OK", "FAIL", "m"⟩,
   ⟨⟨1, 15⟩, "service_f4", "service", "f4", some "OK", "FAIL", "m"⟩,
   ⟨⟨1, 20⟩, "service_f5", "service", "f5", some "OK", "FAIL", "m"⟩,
   ⟨⟨1, 25⟩, "service_f6", "service", "f6", some "OK", "FAIL", "m"⟩]

/-- C5 (counterexample): the claim says the "ongoing issues" section lists
exactly the queued entries whose status is not OK, but the source truncates
the section to the first five (`ongoing_issues[:5]`): with six still-FAIL
entries the section shows five lines and omits the sixth. -/
theorem morning_summary_ongoing_truncation_counterexample :
    ((generate_morning_summary morningEnv sixFailQueue).1.bind
        (fun em => embedFieldValue em "⚠️ Ongoing Issues"))
      = some (pyJoin "\n"
          (((sixFailQueue.filter (fun e => e.newStatus ≠ "OK")).take 5).map sleepIssueLine))
    ∧ ((generate_morning_summary morningEnv sixFailQueue).1.bind
        (fun em => embedFieldValue em "⚠️ Ongoing Issues"))
      ≠ some (pyJoin "\n"
          ((sixFailQueue.filter (fun e => e.newStatus ≠ "OK")).map sleepIssueLine))
    ∧ (sixFailQueue.filter (fun e => e.newStatus ≠ "OK")).length = 6 := by
  decide

/-- C5 (amended): with the sleep schedule and the morning summary enabled,
building the digest from an empty queue yields the "quiet night" variant and
from a non-empty queue the activity variant, whose "ongoing issues" section
lists exactly the first five (at most) of the queued entries whose status is
not OK (and is absent when every entry recovered); in both cases the
sleep-event queue is empty after the digest is built — the clearing happens
inside digest generation, before and independent of any delivery attempt. -/
theorem morning_summary_spec (env : String → Option String)
    (queue : List SleepEventRow) (startT endT : TimeHM)
    (hs : get_sleep_schedule env = (some startT, some endT, true))
    (hsum : pyLower (pyGetenv env "SLEEP_SUMMARY_ENABLED" "true") = "true") :
    (queue = [] →
      (generate_morning_summary env queue).2 = []
      ∧ ((generate_morning_summary env queue).1.map (fun em => em.title))
          = some "🌅 Good Morning!"
      ∧ ((generate_morning_summary env queue).1.map
            (fun em => em.fields.map (fun f => f.name)))
          = some ["✨ Quiet Night", "🟢 Current Status"])
    ∧ (queue ≠ [] →
      (generate_morning_summary env queue).2 = []
      ∧ ((generate_morning_summary env queue).1.map (fun em => em.title))
          = some "🌅 Overnight Activity Summary"
      ∧ (queue.filter (fun e => e.newStatus ≠ "OK") = [] →
          ((generate_morning_summary env queue).1.bind
              (fun em => embedFieldValue em "⚠️ Ongoing Issues")) = none)
      ∧ (queue.filter (fun e => e.newStatus ≠ "OK") ≠ [] →
          ((generate_morning_summary env queue).1.bind
              (fun em => embedFieldValue em "⚠️ Ongoing Issues"))
            = some (pyJoin "\n"
                (((queue.filter (fun e => e.newStatus ≠ "OK")).take 5).map
                  sleepIssueLine)))) := by
  constructor
  · intro hq
    subst hq
    simp only [generate_morning_summary, hs]
    rw [if_neg (fun hn => hn hsum)]
    exact ⟨rfl, rfl, rfl⟩
  · intro hq
    cases queue with
    | nil => exact absurd rfl hq
    | cons e0 erest =>
      simp only [generate_morning_summary, hs]
      rw [if_neg (fun hn => hn hsum)]
      refine ⟨rfl, rfl, ?_, ?_⟩
      · intro hOng
        simp only [Option.some_bind, embedFieldValue]
        rw [find?_all_false_append_single _ _ _
            (digest_head_fields_not_ongoing (e0 :: erest)),
          ongoingOrStatusField_of_empty _ hOng]
        rfl
      · intro hOng
        simp only [Option.some_bind, embedFieldValue]
        rw [find?_all_false_append_single _ _ _
            (digest_head_fields_not_ongoing (e0 :: erest)),
          ongoingOrStatusField_of_nonempty _ hOng]
        rfl

/-- Witness for C5: with the concrete environment above and an empty queue,
the digest is the quiet-night variant and the queue stays empty. -/
theorem morning_summary_spec_witness :
    (generate_morning_summary morningEnv []).2 = []
    ∧ ((generate_morning_summary morningEnv []).1.map (fun em => em.title))
        = some "🌅 Good Morning!"
    ∧ ((generate_morning_summary morningEnv []).1.map
          (fun em => em.fields.map (fun f => f.name)))
        = some ["✨ Quiet Night", "🟢 Current Status"] :=
  (morning_summary_spec morningEnv [] ⟨0, 0⟩ ⟨7, 30⟩ (by decide) (by decide)).1 rfl

end HomeSentry
